import Mathlib

/-!
Verification of the autoscaler control loop (src/autoscaler.py).

The development shallowly embeds the `AutoScaler` class: the two retried
network operations `get_current_status` (lines 51-87) and
`set_replica_count` (lines 89-131), the decision rule and the body of
`run` (lines 133-168), the stop-signal machinery `request_stop`
(lines 170-176) and the startup host validation in `parse_arguments` /
`main` (lines 208-328).

Network responses are supplied by an oracle (`Nat → HttpGetResult`,
`Nat → HttpPutResult`) giving the outcome of each HTTP attempt in order.
CPU fractions are modelled as rationals, replica counts as integers
(Python ints are unbounded).  Time is not modelled; the sleeps a call
performs are recorded as the list of their durations, in order.
-/

namespace Autoscaler

/-- A parsed status body holding the two fields the loop reads:
`status["cpu"]["highPriority"]` and `status["replicas"]`
(src/autoscaler.py lines 145-147). -/
structure Status where
  cpuHighPriority : ℚ
  replicas : Int
deriving DecidableEq, Repr

/-- Outcome of one HTTP GET attempt against `/app/status`:
either a response with a status code and a body (`some` = the body parses
as JSON with the expected fields, `none` = the body is malformed so
`response.json()` raises), or a transport-level `RequestException`. -/
inductive HttpGetResult where
  | response (statusCode : Nat) (body : Option Status)
  | exn
deriving DecidableEq, Repr

/-- Outcome of one HTTP PUT attempt against `/app/replicas`:
a response with a status code, or a transport-level `RequestException`. -/
inductive HttpPutResult where
  | response (statusCode : Nat)
  | exn
deriving DecidableEq, Repr

/-- What one GET attempt yields inside the `try` of `get_current_status`
(src/autoscaler.py lines 64-79): `some s` when the response has HTTP
status 200 and its body parses (line 69-71 `return response.json()`),
otherwise `none` (a failed attempt).  A 200 response with a malformed
body makes `response.json()` raise `requests.exceptions.JSONDecodeError`,
a subclass of `RequestException`, which the `except` on line 76 catches:
such an attempt also fails without escaping the method. -/
def getAttempt : HttpGetResult → Option Status
  | .response statusCode body => if statusCode == 200 then body else none
  | .exn => none

/-- Observable trace of one `get_current_status` call: the returned value
(`none` models Python `None`), the durations of the `time.sleep` calls
performed, in order, and the number of HTTP attempts made. -/
structure GetTrace where
  result : Option Status
  sleeps : List Nat
  attemptsMade : Nat
deriving DecidableEq, Repr

/-- The `while attempts < self.retry_count` loop of `get_current_status`
(src/autoscaler.py lines 62-87), with `attempts` the current value of the
Python counter and `remaining = retry_count - attempts` the fuel.  On a
successful attempt the method returns at line 71; on a failed attempt the
counter is incremented and the loop sleeps `retry_delay ** attempts`
(lines 82-84) — note the sleep happens after every failed attempt,
including the last one. -/
def get_current_status_go (retry_delay : Nat) (responses : Nat → HttpGetResult) :
    Nat → Nat → GetTrace
  | _, 0 => { result := none, sleeps := [], attemptsMade := 0 }
  | attempts, remaining + 1 =>
    match getAttempt (responses attempts) with
    | some s => { result := some s, sleeps := [], attemptsMade := 1 }
    | none =>
      let t := get_current_status_go retry_delay responses (attempts + 1) remaining
      { result := t.result
        sleeps := retry_delay ^ (attempts + 1) :: t.sleeps
        attemptsMade := t.attemptsMade + 1 }

/-- `AutoScaler.get_current_status` (src/autoscaler.py lines 51-87):
starts with `attempts = 0` and runs the retry loop. -/
def get_current_status (retry_count retry_delay : Nat)
    (responses : Nat → HttpGetResult) : GetTrace :=
  get_current_status_go retry_delay responses 0 retry_count

/-- Whether one PUT attempt succeeds inside the `try` of
`set_replica_count` (src/autoscaler.py lines 108-124): exactly an HTTP
204 response (line 116); any other status code or a transport
`RequestException` is a failed attempt. -/
def putAttemptOk : HttpPutResult → Bool
  | .response statusCode => statusCode == 204
  | .exn => false

/-- Observable trace of one `set_replica_count` call: whether the write
succeeded (the Python method returns no value; `success` is its local
flag, observable through logs), the sleep durations, and the number of
HTTP attempts made. -/
structure PutTrace where
  success : Bool
  sleeps : List Nat
  attemptsMade : Nat
deriving DecidableEq, Repr

/-- The `while not success and attempts < self.retry_count` loop of
`set_replica_count` (src/autoscaler.py lines 105-131).  On HTTP 204 the
method returns at line 118; on a failed attempt the counter is
incremented and the loop sleeps `retry_delay ** attempts`
(lines 127-131), again after every failed attempt including the last. -/
def set_replica_count_go (retry_delay : Nat) (responses : Nat → HttpPutResult) :
    Nat → Nat → PutTrace
  | _, 0 => { success := false, sleeps := [], attemptsMade := 0 }
  | attempts, remaining + 1 =>
    if putAttemptOk (responses attempts) then
      { success := true, sleeps := [], attemptsMade := 1 }
    else
      let t := set_replica_count_go retry_delay responses (attempts + 1) remaining
      { success := t.success
        sleeps := retry_delay ^ (attempts + 1) :: t.sleeps
        attemptsMade := t.attemptsMade + 1 }

/-- `AutoScaler.set_replica_count` (src/autoscaler.py lines 89-131):
starts with `success = False`, `attempts = 0` and runs the retry loop. -/
def set_replica_count (retry_count retry_delay : Nat)
    (responses : Nat → HttpPutResult) : PutTrace :=
  set_replica_count_go retry_delay responses 0 retry_count

/-! ### Unfolding equations for the retry loops -/

theorem get_go_zero (retry_delay : Nat) (responses : Nat → HttpGetResult)
    (attempts : Nat) :
    get_current_status_go retry_delay responses attempts 0 =
      { result := none, sleeps := [], attemptsMade := 0 } := rfl

theorem get_go_succ_ok (retry_delay : Nat) (responses : Nat → HttpGetResult)
    (attempts n : Nat) (s : Status) (h : getAttempt (responses attempts) = some s) :
    get_current_status_go retry_delay responses attempts (n + 1) =
      { result := some s, sleeps := [], attemptsMade := 1 } := by
  unfold get_current_status_go
  rw [h]

theorem get_go_succ_fail (retry_delay : Nat) (responses : Nat → HttpGetResult)
    (attempts n : Nat) (h : getAttempt (responses attempts) = none) :
    get_current_status_go retry_delay responses attempts (n + 1) =
      { result := (get_current_status_go retry_delay responses (attempts + 1) n).result
        sleeps := retry_delay ^ (attempts + 1) ::
          (get_current_status_go retry_delay responses (attempts + 1) n).sleeps
        attemptsMade :=
          (get_current_status_go retry_delay responses (attempts + 1) n).attemptsMade + 1 } := by
  conv_lhs => unfold get_current_status_go
  rw [h]

theorem put_go_zero (retry_delay : Nat) (responses : Nat → HttpPutResult)
    (attempts : Nat) :
    set_replica_count_go retry_delay responses attempts 0 =
      { success := false, sleeps := [], attemptsMade := 0 } := rfl

theorem put_go_succ_ok (retry_delay : Nat) (responses : Nat → HttpPutResult)
    (attempts n : Nat) (h : putAttemptOk (responses attempts) = true) :
    set_replica_count_go retry_delay responses attempts (n + 1) =
      { success := true, sleeps := [], attemptsMade := 1 } := by
  unfold set_replica_count_go
  rw [h]
  simp

theorem put_go_succ_fail (retry_delay : Nat) (responses : Nat → HttpPutResult)
    (attempts n : Nat) (h : putAttemptOk (responses attempts) = false) :
    set_replica_count_go retry_delay responses attempts (n + 1) =
      { success := (set_replica_count_go retry_delay responses (attempts + 1) n).success
        sleeps := retry_delay ^ (attempts + 1) ::
          (set_replica_count_go retry_delay responses (attempts + 1) n).sleeps
        attemptsMade :=
          (set_replica_count_go retry_delay responses (attempts + 1) n).attemptsMade + 1 } := by
  conv_lhs => unfold set_replica_count_go
  rw [h]
  simp

/-! ### The control loop (`AutoScaler.run`, src/autoscaler.py lines 133-168) -/

/-- The configuration fields of `AutoScaler.__init__` that the run loop
and the transport operations read (src/autoscaler.py lines 31-37). -/
structure ScalerConfig where
  target_cpu_usage : ℚ
  polling_interval : Nat
  retry_count : Nat
  retry_delay : Nat

/-- The decision rule of `run` (src/autoscaler.py lines 148-154):
`new_replicas` is initialised to `current_replicas` and then updated by
two independent `if` statements, first on `current_cpu < target`, then on
`current_cpu > target`. -/
def newReplicasCalc (target_cpu_usage current_cpu : ℚ) (current_replicas : Int) : Int :=
  let new_replicas := current_replicas
  let new_replicas :=
    if current_cpu < target_cpu_usage then max 1 (current_replicas - 1) else new_replicas
  let new_replicas :=
    if current_cpu > target_cpu_usage then current_replicas + 1 else new_replicas
  new_replicas

/-- The network oracle for one loop iteration: the outcomes of the GET
attempts of `get_current_status` and (if a write happens) of the PUT
attempts of `set_replica_count`, indexed by attempt number. -/
structure IterEnv where
  getResponses : Nat → HttpGetResult
  putResponses : Nat → HttpPutResult

/-- Observable trace of one iteration of the `run` loop body
(src/autoscaler.py lines 142-161): the status returned by
`get_current_status`, the extracted `current_cpu` and `current_replicas`
(lines 145-147, `none` when the status was absent), the computed
`new_replicas`, the argument of the `set_replica_count` call when one is
made (line 161) and that call's trace. -/
structure IterTrace where
  status : Option Status
  currentCpu : Option ℚ
  currentReplicas : Option Int
  newReplicas : Option Int
  putCall : Option Int
  putTrace : Option PutTrace
deriving DecidableEq, Repr

/-- The `if status:` body of one `run` iteration (src/autoscaler.py
lines 143-161), as a function of the value `get_current_status`
returned.  `None` is falsy in Python, so an absent status skips the whole
block; a parsed status dict with the two expected fields is truthy.
`set_replica_count` is called exactly when `new_replicas !=
current_replicas` (lines 160-161). -/
def iterationBody (cfg : ScalerConfig) (env : IterEnv) : Option Status → IterTrace
  | none =>
    { status := none, currentCpu := none, currentReplicas := none
      newReplicas := none, putCall := none, putTrace := none }
  | some st =>
    let current_cpu := st.cpuHighPriority
    let current_replicas := st.replicas
    let new_replicas := newReplicasCalc cfg.target_cpu_usage current_cpu current_replicas
    if new_replicas ≠ current_replicas then
      { status := some st, currentCpu := some current_cpu
        currentReplicas := some current_replicas, newReplicas := some new_replicas
        putCall := some new_replicas
        putTrace := some (set_replica_count cfg.retry_count cfg.retry_delay env.putResponses) }
    else
      { status := some st, currentCpu := some current_cpu
        currentReplicas := some current_replicas, newReplicas := some new_replicas
        putCall := none, putTrace := none }

/-- One full iteration of the `run` loop body: call
`get_current_status` (line 142), then run the `if status:` block. -/
def runIteration (cfg : ScalerConfig) (env : IterEnv) : IterTrace :=
  iterationBody cfg env
    (get_current_status cfg.retry_count cfg.retry_delay env.getResponses).result

/-- The `while not self.stop_requested` loop of `run`
(src/autoscaler.py lines 141-168) with fuel, collecting the iteration
traces in order.  `stopObs k` is the value of `self.stop_requested`
observed at the top of iteration `k`; `envs k` supplies the network
outcomes of iteration `k`.  When `run_once` is set the loop breaks after
the first iteration, skipping the sleep (lines 164-165). -/
def runLoopFrom (cfg : ScalerConfig) (envs : Nat → IterEnv) (run_once : Bool)
    (stopObs : Nat → Bool) : Nat → Nat → List IterTrace
  | _, 0 => []
  | k, fuel + 1 =>
    if stopObs k then []
    else
      let t := runIteration cfg (envs k)
      if run_once then [t]
      else t :: runLoopFrom cfg envs run_once stopObs (k + 1) fuel

/-! ### The two-state shutdown machine abstracted from `run` -/

/-- The loop states of §4.2: RUNNING while the `while` loop is live,
STOPPED once it has exited. -/
inductive LoopState where
  | RUNNING
  | STOPPED
deriving DecidableEq, Repr

/-- One pass of the `run` loop viewed as a state-machine step: at the
top of an iteration the loop exits if `stop_requested` is observed true
(line 141); otherwise the body runs and the loop breaks if `run_once`
is set (lines 164-165); otherwise it sleeps and stays RUNNING.  A loop
that has exited never restarts. -/
def loopStep (run_once stop_observed : Bool) : LoopState → LoopState
  | .STOPPED => .STOPPED
  | .RUNNING =>
    if stop_observed then .STOPPED
    else if run_once then .STOPPED
    else .RUNNING

/-- The loop state at each iteration boundary: `run` starts RUNNING and
steps once per iteration, observing `stopObs n` at the top of
iteration `n`. -/
def loopTraj (run_once : Bool) (stopObs : Nat → Bool) : Nat → LoopState
  | 0 => .RUNNING
  | n + 1 => loopStep run_once (stopObs n) (loopTraj run_once stopObs n)

/-- The mutable flags of an `AutoScaler` instance
(src/autoscaler.py lines 40-41). -/
structure ScalerState where
  run_once : Bool
  stop_requested : Bool
deriving DecidableEq, Repr

/-- `AutoScaler.request_stop` (src/autoscaler.py lines 170-176):
sets `self.stop_requested = True`. -/
def request_stop (s : ScalerState) : ScalerState :=
  { s with stop_requested := true }

/-! ### Startup validation (`parse_arguments` / `main`,
src/autoscaler.py lines 208-328) -/

/-- `is_valid_ip_address` (src/autoscaler.py lines 238-254):
`"localhost"` and `"host.docker.internal"` are accepted literally; any
other string is accepted exactly when the standard library
`ipaddress.ip_address` parses it.  That external parser is the
parameter `ip_address_ok`. -/
def is_valid_ip_address (ip_address_ok : String → Bool) (ip : String) : Bool :=
  if ip == "localhost" || ip == "host.docker.internal" then true
  else ip_address_ok ip

/-- Result of `parse_arguments` (src/autoscaler.py lines 208-235) as far
as host validation goes: on an invalid host it logs and calls
`sys.exit(1)`, which raises `SystemExit(1)` (lines 231-233); otherwise
it returns the parsed arguments. -/
inductive ParseOutcome where
  | ok
  | systemExit (code : Nat)
deriving DecidableEq, Repr

def parse_arguments_hostCheck (ip_address_ok : String → Bool) (host : String) : ParseOutcome :=
  if is_valid_ip_address ip_address_ok host then .ok else .systemExit 1

/-- How the process behaves, as determined by `main`: either it ends
before the loop ever starts — with the process exit status and the
number of network calls made by then — or it constructs the
`AutoScaler` and enters `run`. -/
inductive MainBehavior where
  | exitBeforeLoop (exitCode : Nat) (networkCalls : Nat)
  | runsLoop
deriving DecidableEq, Repr

/-- `main` (src/autoscaler.py lines 273-328) restricted to the startup
path.  When `parse_arguments` raises `SystemExit`, the `except
SystemExit` handler at line 313 catches it, logs, falls through to the
`finally` block and returns normally — so the interpreter exits the
script with status 0, having made no network call and never having
started the loop.  On a valid host `main` builds the `AutoScaler` and
calls `run`. -/
def main_model (ip_address_ok : String → Bool) (host : String) : MainBehavior :=
  match parse_arguments_hostCheck ip_address_ok host with
  | .systemExit _code => .exitBeforeLoop 0 0
  | .ok => .runsLoop

/-! ### Helper lemmas -/

/-- The two sequential `if` updates compute the three-way rule: the
second `if` wins when it fires, otherwise the first, otherwise the
initial value. -/
theorem newReplicasCalc_eq_rule (t c : ℚ) (r : Int) :
    newReplicasCalc t c r =
      if c < t then max 1 (r - 1) else if c > t then r + 1 else r := by
  unfold newReplicasCalc
  rcases lt_trichotomy c t with h | h | h
  · simp [h, asymm h]
  · simp [h, lt_irrefl]
  · simp [h, asymm h]

theorem newReplicasCalc_of_lt {t c : ℚ} (r : Int) (h : c < t) :
    newReplicasCalc t c r = max 1 (r - 1) := by
  rw [newReplicasCalc_eq_rule]
  simp [h]

theorem newReplicasCalc_of_gt {t c : ℚ} (r : Int) (h : c > t) :
    newReplicasCalc t c r = r + 1 := by
  rw [newReplicasCalc_eq_rule]
  simp [h, asymm h]

theorem newReplicasCalc_of_eq {t c : ℚ} (r : Int) (h : c = t) :
    newReplicasCalc t c r = r := by
  rw [newReplicasCalc_eq_rule]
  simp [h, lt_irrefl]

theorem runIteration_of_result {cfg : ScalerConfig} {env : IterEnv} {o : Option Status}
    (h : (get_current_status cfg.retry_count cfg.retry_delay env.getResponses).result = o) :
    runIteration cfg env = iterationBody cfg env o := by
  unfold runIteration
  rw [h]

theorem iterationBody_none (cfg : ScalerConfig) (env : IterEnv) :
    iterationBody cfg env none =
      { status := none, currentCpu := none, currentReplicas := none
        newReplicas := none, putCall := none, putTrace := none } := rfl

theorem iterationBody_some (cfg : ScalerConfig) (env : IterEnv) (st : Status) :
    iterationBody cfg env (some st) =
      if newReplicasCalc cfg.target_cpu_usage st.cpuHighPriority st.replicas ≠ st.replicas then
        { status := some st, currentCpu := some st.cpuHighPriority
          currentReplicas := some st.replicas
          newReplicas := some (newReplicasCalc cfg.target_cpu_usage st.cpuHighPriority st.replicas)
          putCall := some (newReplicasCalc cfg.target_cpu_usage st.cpuHighPriority st.replicas)
          putTrace := some (set_replica_count cfg.retry_count cfg.retry_delay env.putResponses) }
      else
        { status := some st, currentCpu := some st.cpuHighPriority
          currentReplicas := some st.replicas
          newReplicas := some (newReplicasCalc cfg.target_cpu_usage st.cpuHighPriority st.replicas)
          putCall := none, putTrace := none } := rfl

theorem iterationBody_some_status (cfg : ScalerConfig) (env : IterEnv) (st : Status) :
    (iterationBody cfg env (some st)).status = some st := by
  rw [iterationBody_some]
  split <;> rfl

theorem iterationBody_some_cpu (cfg : ScalerConfig) (env : IterEnv) (st : Status) :
    (iterationBody cfg env (some st)).currentCpu = some st.cpuHighPriority := by
  rw [iterationBody_some]
  split <;> rfl

theorem iterationBody_some_replicas (cfg : ScalerConfig) (env : IterEnv) (st : Status) :
    (iterationBody cfg env (some st)).currentReplicas = some st.replicas := by
  rw [iterationBody_some]
  split <;> rfl

theorem iterationBody_some_new (cfg : ScalerConfig) (env : IterEnv) (st : Status) :
    (iterationBody cfg env (some st)).newReplicas =
      some (newReplicasCalc cfg.target_cpu_usage st.cpuHighPriority st.replicas) := by
  rw [iterationBody_some]
  split <;> rfl

theorem iterationBody_putCall (cfg : ScalerConfig) (env : IterEnv) (st : Status) :
    (iterationBody cfg env (some st)).putCall =
      if newReplicasCalc cfg.target_cpu_usage st.cpuHighPriority st.replicas = st.replicas
      then none
      else some (newReplicasCalc cfg.target_cpu_usage st.cpuHighPriority st.replicas) := by
  rw [iterationBody_some]
  by_cases h : newReplicasCalc cfg.target_cpu_usage st.cpuHighPriority st.replicas = st.replicas
  · simp [h]
  · simp [h]

theorem runLoopFrom_zero (cfg : ScalerConfig) (envs : Nat → IterEnv) (run_once : Bool)
    (stopObs : Nat → Bool) (k : Nat) :
    runLoopFrom cfg envs run_once stopObs k 0 = [] := rfl

theorem runLoopFrom_succ (cfg : ScalerConfig) (envs : Nat → IterEnv) (run_once : Bool)
    (stopObs : Nat → Bool) (k fuel : Nat) :
    runLoopFrom cfg envs run_once stopObs k (fuel + 1) =
      if stopObs k then []
      else if run_once then [runIteration cfg (envs k)]
      else runIteration cfg (envs k) :: runLoopFrom cfg envs run_once stopObs (k + 1) fuel := by
  conv_lhs => unfold runLoopFrom

/-- The length of the trace list produced by the `run` loop depends only
on the fuel, the `run_once` flag and the observed stop signal — never on
any network outcome: the loop condition (line 141) inspects nothing
else. -/
theorem runLoopFrom_length_indep (cfg cfg2 : ScalerConfig) (envs envs2 : Nat → IterEnv)
    (run_once : Bool) (stopObs : Nat → Bool) :
    ∀ fuel k, (runLoopFrom cfg envs run_once stopObs k fuel).length =
      (runLoopFrom cfg2 envs2 run_once stopObs k fuel).length := by
  intro fuel
  induction fuel with
  | zero => intro k; rfl
  | succ n ih =>
    intro k
    rw [runLoopFrom_succ, runLoopFrom_succ]
    cases hs : stopObs k
    · cases run_once
      · simp [ih]
      · simp
    · simp

/-- Core facts about the GET retry loop, for any starting value of the
`attempts` counter: at most `remaining` further attempts are made; the
`i`-th recorded sleep lasts `retry_delay ^ (attempts + 1 + i)` seconds;
and there is one sleep per failed attempt — so on exhaustion (result
`none`) as many sleeps as attempts, and on success one fewer. -/
theorem get_go_spec (retry_delay : Nat) (responses : Nat → HttpGetResult) :
    ∀ remaining attempts,
      (get_current_status_go retry_delay responses attempts remaining).attemptsMade ≤ remaining ∧
      (∀ i, i < (get_current_status_go retry_delay responses attempts remaining).sleeps.length →
        (get_current_status_go retry_delay responses attempts remaining).sleeps.get? i =
          some (retry_delay ^ (attempts + 1 + i))) ∧
      ((get_current_status_go retry_delay responses attempts remaining).result = none →
        (get_current_status_go retry_delay responses attempts remaining).sleeps.length =
          (get_current_status_go retry_delay responses attempts remaining).attemptsMade) ∧
      (∀ s, (get_current_status_go retry_delay responses attempts remaining).result = some s →
        (get_current_status_go retry_delay responses attempts remaining).sleeps.length + 1 =
          (get_current_status_go retry_delay responses attempts remaining).attemptsMade) := by
  intro remaining
  induction remaining with
  | zero =>
    intro attempts
    rw [get_go_zero]
    refine ⟨Nat.le_refl 0, ?_, fun _ => rfl, ?_⟩
    · intro i hi
      simp at hi
    · intro s hs
      simp at hs
  | succ n ih =>
    intro attempts
    cases hA : getAttempt (responses attempts) with
    | some s =>
      rw [get_go_succ_ok retry_delay responses attempts n s hA]
      refine ⟨by simp, ?_, ?_, fun s2 _ => rfl⟩
      · intro i hi
        simp at hi
      · intro h
        simp at h
    | none =>
      rw [get_go_succ_fail retry_delay responses attempts n hA]
      obtain ⟨ih1, ih2, ih3, ih4⟩ := ih (attempts + 1)
      dsimp only
      refine ⟨by omega, ?_, ?_, ?_⟩
      · intro i hi
        cases i with
        | zero => simp
        | succ j =>
          have hj : j <
              (get_current_status_go retry_delay responses (attempts + 1) n).sleeps.length := by
            simpa using hi
          rw [List.get?_cons_succ,
            show attempts + 1 + (j + 1) = attempts + 1 + 1 + j from by omega]
          exact ih2 j hj
      · intro h
        have := ih3 h
        simp only [List.length_cons]
        omega
      · intro s hs
        have := ih4 s hs
        simp only [List.length_cons]
        omega

/-- Core facts about the PUT retry loop, mirror image of `get_go_spec`. -/
theorem put_go_spec (retry_delay : Nat) (responses : Nat → HttpPutResult) :
    ∀ remaining attempts,
      (set_replica_count_go retry_delay responses attempts remaining).attemptsMade ≤ remaining ∧
      (∀ i, i < (set_replica_count_go retry_delay responses attempts remaining).sleeps.length →
        (set_replica_count_go retry_delay responses attempts remaining).sleeps.get? i =
          some (retry_delay ^ (attempts + 1 + i))) ∧
      ((set_replica_count_go retry_delay responses attempts remaining).success = false →
        (set_replica_count_go retry_delay responses attempts remaining).sleeps.length =
          (set_replica_count_go retry_delay responses attempts remaining).attemptsMade) ∧
      ((set_replica_count_go retry_delay responses attempts remaining).success = true →
        (set_replica_count_go retry_delay responses attempts remaining).sleeps.length + 1 =
          (set_replica_count_go retry_delay responses attempts remaining).attemptsMade) := by
  intro remaining
  induction remaining with
  | zero =>
    intro attempts
    rw [put_go_zero]
    refine ⟨Nat.le_refl 0, ?_, fun _ => rfl, ?_⟩
    · intro i hi
      simp at hi
    · intro hs
      simp at hs
  | succ n ih =>
    intro attempts
    cases hA : putAttemptOk (responses attempts) with
    | true =>
      rw [put_go_succ_ok retry_delay responses attempts n hA]
      refine ⟨by simp, ?_, ?_, fun _ => rfl⟩
      · intro i hi
        simp at hi
      · intro h
        simp at h
    | false =>
      rw [put_go_succ_fail retry_delay responses attempts n hA]
      obtain ⟨ih1, ih2, ih3, ih4⟩ := ih (attempts + 1)
      dsimp only
      refine ⟨by omega, ?_, ?_, ?_⟩
      · intro i hi
        cases i with
        | zero => simp
        | succ j =>
          have hj : j <
              (set_replica_count_go retry_delay responses (attempts + 1) n).sleeps.length := by
            simpa using hi
          rw [List.get?_cons_succ,
            show attempts + 1 + (j + 1) = attempts + 1 + 1 + j from by omega]
          exact ih2 j hj
      · intro h
        have := ih3 h
        simp only [List.length_cons]
        omega
      · intro hs
        have := ih4 hs
        simp only [List.length_cons]
        omega

/-- If the first `k` GET attempts (relative to the current counter) fail
and attempt `k` succeeds with status `st`, the loop returns `st` after
exactly `k + 1` attempts. -/
theorem get_go_first_success (retry_delay : Nat) (responses : Nat → HttpGetResult)
    (st : Status) :
    ∀ remaining attempts k, k < remaining →
      (∀ j, j < k → getAttempt (responses (attempts + j)) = none) →
      getAttempt (responses (attempts + k)) = some st →
      (get_current_status_go retry_delay responses attempts remaining).result = some st ∧
      (get_current_status_go retry_delay responses attempts remaining).attemptsMade = k + 1 := by
  intro remaining
  induction remaining with
  | zero =>
    intro attempts k hk
    exact absurd hk (Nat.not_lt_zero k)
  | succ n ih =>
    intro attempts k hk hfail hok
    cases k with
    | zero =>
      rw [get_go_succ_ok retry_delay responses attempts n st (by simpa using hok)]
      exact ⟨rfl, rfl⟩
    | succ j =>
      have h0 : getAttempt (responses attempts) = none := by
        simpa using hfail 0 (Nat.succ_pos j)
      rw [get_go_succ_fail retry_delay responses attempts n h0]
      have hfail2 : ∀ i, i < j → getAttempt (responses (attempts + 1 + i)) = none := by
        intro i hi
        have := hfail (i + 1) (by omega)
        rwa [show attempts + (i + 1) = attempts + 1 + i from by omega] at this
      have hok2 : getAttempt (responses (attempts + 1 + j)) = some st := by
        rwa [show attempts + (j + 1) = attempts + 1 + j from by omega] at hok
      obtain ⟨r1, r2⟩ := ih (attempts + 1) j (by omega) hfail2 hok2
      exact ⟨r1, by simp [r2]⟩

/-- If all available GET attempts fail, the loop returns `None` after
making every allowed attempt. -/
theorem get_go_all_fail (retry_delay : Nat) (responses : Nat → HttpGetResult) :
    ∀ remaining attempts,
      (∀ j, j < remaining → getAttempt (responses (attempts + j)) = none) →
      (get_current_status_go retry_delay responses attempts remaining).result = none ∧
      (get_current_status_go retry_delay responses attempts remaining).attemptsMade = remaining := by
  intro remaining
  induction remaining with
  | zero =>
    intro attempts _
    exact ⟨rfl, rfl⟩
  | succ n ih =>
    intro attempts hfail
    have h0 : getAttempt (responses attempts) = none := by
      simpa using hfail 0 (Nat.succ_pos n)
    rw [get_go_succ_fail retry_delay responses attempts n h0]
    have hfail2 : ∀ i, i < n → getAttempt (responses (attempts + 1 + i)) = none := by
      intro i hi
      have := hfail (i + 1) (by omega)
      rwa [show attempts + (i + 1) = attempts + 1 + i from by omega] at this
    obtain ⟨r1, r2⟩ := ih (attempts + 1) hfail2
    exact ⟨r1, by simp [r2]⟩

/-- If the first `k` PUT attempts fail and attempt `k` returns HTTP 204,
the write succeeds and stops after exactly `k + 1` attempts. -/
theorem put_go_first_success (retry_delay : Nat) (responses : Nat → HttpPutResult) :
    ∀ remaining attempts k, k < remaining →
      (∀ j, j < k → putAttemptOk (responses (attempts + j)) = false) →
      putAttemptOk (responses (attempts + k)) = true →
      (set_replica_count_go retry_delay responses attempts remaining).success = true ∧
      (set_replica_count_go retry_delay responses attempts remaining).attemptsMade = k + 1 := by
  intro remaining
  induction remaining with
  | zero =>
    intro attempts k hk
    exact absurd hk (Nat.not_lt_zero k)
  | succ n ih =>
    intro attempts k hk hfail hok
    cases k with
    | zero =>
      rw [put_go_succ_ok retry_delay responses attempts n (by simpa using hok)]
      exact ⟨rfl, rfl⟩
    | succ j =>
      have h0 : putAttemptOk (responses attempts) = false := by
        simpa using hfail 0 (Nat.succ_pos j)
      rw [put_go_succ_fail retry_delay responses attempts n h0]
      have hfail2 : ∀ i, i < j → putAttemptOk (responses (attempts + 1 + i)) = false := by
        intro i hi
        have := hfail (i + 1) (by omega)
        rwa [show attempts + (i + 1) = attempts + 1 + i from by omega] at this
      have hok2 : putAttemptOk (responses (attempts + 1 + j)) = true := by
        rwa [show attempts + (j + 1) = attempts + 1 + j from by omega] at hok
      obtain ⟨r1, r2⟩ := ih (attempts + 1) j (by omega) hfail2 hok2
      exact ⟨r1, by simp [r2]⟩

/-- If all available PUT attempts fail, the write gives up silently
after making every allowed attempt. -/
theorem put_go_all_fail (retry_delay : Nat) (responses : Nat → HttpPutResult) :
    ∀ remaining attempts,
      (∀ j, j < remaining → putAttemptOk (responses (attempts + j)) = false) →
      (set_replica_count_go retry_delay responses attempts remaining).success = false ∧
      (set_replica_count_go retry_delay responses attempts remaining).attemptsMade = remaining := by
  intro remaining
  induction remaining with
  | zero =>
    intro attempts _
    exact ⟨rfl, rfl⟩
  | succ n ih =>
    intro attempts hfail
    have h0 : putAttemptOk (responses attempts) = false := by
      simpa using hfail 0 (Nat.succ_pos n)
    rw [put_go_succ_fail retry_delay responses attempts n h0]
    have hfail2 : ∀ i, i < n → putAttemptOk (responses (attempts + 1 + i)) = false := by
      intro i hi
      have := hfail (i + 1) (by omega)
      rwa [show attempts + (i + 1) = attempts + 1 + i from by omega] at this
    obtain ⟨r1, r2⟩ := ih (attempts + 1) hfail2
    exact ⟨r1, by simp [r2]⟩

theorem loopTraj_zero (run_once : Bool) (stopObs : Nat → Bool) :
    loopTraj run_once stopObs 0 = LoopState.RUNNING := rfl

theorem loopTraj_succ (run_once : Bool) (stopObs : Nat → Bool) (n : Nat) :
    loopTraj run_once stopObs (n + 1) =
      loopStep run_once (stopObs n) (loopTraj run_once stopObs n) := rfl

/-! ### Concrete fixtures used by witnesses -/

/-- The default configuration of `parse_arguments`
(src/autoscaler.py lines 221-226): target 0.80, polling 15 s,
6 retries, base delay 2 s. -/
def cfgDefault : ScalerConfig :=
  { target_cpu_usage := 4/5, polling_interval := 15, retry_count := 6, retry_delay := 2 }

/-- An environment whose GET always answers HTTP 200 with body `st` and
whose PUT always answers HTTP 204. -/
def envOk (st : Status) : IterEnv :=
  { getResponses := fun _ => .response 200 (some st)
    putResponses := fun _ => .response 204 }

/-- An environment where every attempt fails at transport level. -/
def envAllFail : IterEnv :=
  { getResponses := fun _ => .exn, putResponses := fun _ => .exn }

/-! ### The claims -/

/-- C1: in every control-loop iteration that obtains a status snapshot,
the computed new replica count follows the three-way decision rule
against `target_cpu_usage`: below target it is `max 1 (current - 1)`,
above target it is `current + 1`, and at target it is unchanged. -/
theorem C1_decision_rule (cfg : ScalerConfig) (env : IterEnv) (st : Status)
    (h : (get_current_status cfg.retry_count cfg.retry_delay env.getResponses).result = some st) :
    (runIteration cfg env).newReplicas =
      some (if st.cpuHighPriority < cfg.target_cpu_usage then max 1 (st.replicas - 1)
            else if st.cpuHighPriority > cfg.target_cpu_usage then st.replicas + 1
            else st.replicas) := by
  rw [runIteration_of_result h, iterationBody_some_new, newReplicasCalc_eq_rule]

/-- Witness for C1 at the defaults: CPU 1/2 below target 4/5 with one
replica floors at one replica. -/
theorem C1_decision_rule_witness :
    (runIteration cfgDefault (envOk { cpuHighPriority := 1/2, replicas := 1 })).newReplicas =
      some 1 := by
  have h := C1_decision_rule cfgDefault (envOk { cpuHighPriority := 1/2, replicas := 1 })
    { cpuHighPriority := 1/2, replicas := 1 } rfl
  rw [h]
  norm_num [cfgDefault, max_def]

/-- C2 counterexample: with `retry_count = 1`, `retry_delay = 2` and a
GET failing at transport level, `get_current_status` makes exactly one
attempt — so no retry ever happens — yet it performs one sleep: the code
sleeps after every failed attempt including the last (lines 82-84), so
it is false that sleeps occur only before a retry. -/
theorem C2_counterexample :
    ¬ ((get_current_status 1 2 (fun _ => HttpGetResult.exn)).sleeps.length ≤
        (get_current_status 1 2 (fun _ => HttpGetResult.exn)).attemptsMade - 1) := by
  decide

/-- C2 (amended): both network operations make at most `retry_count`
attempts per call, and one sleep occurs after every failed attempt —
including a final failed attempt that no retry follows — with the n-th
sleep lasting `retry_delay ^ n` seconds (so on a successful call there
is one sleep fewer than attempts, on an exhausted call exactly one sleep
per attempt). -/
theorem C2_retry_policy (retry_count retry_delay : Nat)
    (gresponses : Nat → HttpGetResult) (presponses : Nat → HttpPutResult) :
    ((get_current_status retry_count retry_delay gresponses).attemptsMade ≤ retry_count ∧
      (∀ i, i < (get_current_status retry_count retry_delay gresponses).sleeps.length →
        (get_current_status retry_count retry_delay gresponses).sleeps.get? i =
          some (retry_delay ^ (i + 1))) ∧
      ((get_current_status retry_count retry_delay gresponses).result = none →
        (get_current_status retry_count retry_delay gresponses).sleeps.length =
          (get_current_status retry_count retry_delay gresponses).attemptsMade) ∧
      (∀ s, (get_current_status retry_count retry_delay gresponses).result = some s →
        (get_current_status retry_count retry_delay gresponses).sleeps.length + 1 =
          (get_current_status retry_count retry_delay gresponses).attemptsMade)) ∧
    ((set_replica_count retry_count retry_delay presponses).attemptsMade ≤ retry_count ∧
      (∀ i, i < (set_replica_count retry_count retry_delay presponses).sleeps.length →
        (set_replica_count retry_count retry_delay presponses).sleeps.get? i =
          some (retry_delay ^ (i + 1))) ∧
      ((set_replica_count retry_count retry_delay presponses).success = false →
        (set_replica_count retry_count retry_delay presponses).sleeps.length =
          (set_replica_count retry_count retry_delay presponses).attemptsMade) ∧
      ((set_replica_count retry_count retry_delay presponses).success = true →
        (set_replica_count retry_count retry_delay presponses).sleeps.length + 1 =
          (set_replica_count retry_count retry_delay presponses).attemptsMade)) := by
  have hg := get_go_spec retry_delay gresponses retry_count 0
  have hp := put_go_spec retry_delay presponses retry_count 0
  constructor
  · refine ⟨hg.1, ?_, hg.2.2.1, hg.2.2.2⟩
    intro i hi
    rw [show i + 1 = 0 + 1 + i from by omega]
    exact hg.2.1 i hi
  · refine ⟨hp.1, ?_, hp.2.2.1, hp.2.2.2⟩
    intro i hi
    rw [show i + 1 = 0 + 1 + i from by omega]
    exact hp.2.1 i hi

/-- Witness for C2 (amended): two exhausted attempts with base delay 3
record a first sleep of 3 seconds. -/
theorem C2_retry_policy_witness :
    (get_current_status 2 3 (fun _ => HttpGetResult.exn)).sleeps.get? 0 =
      some (3 ^ (0 + 1)) := by
  have h := C2_retry_policy 2 3 (fun _ => HttpGetResult.exn) (fun _ => HttpPutResult.exn)
  exact h.1.2.1 0 (by decide)

/-- C3: on an invalid host string the modelled `main` makes no network
call and never starts the loop, but the process exit status is 0, not
non-zero: `sys.exit(1)` raises `SystemExit(1)` inside `parse_arguments`,
and `main` catches `SystemExit` (line 313), logs, and returns normally,
so the interpreter exits the script with status 0. -/
theorem C3_invalid_host (ip_address_ok : String → Bool) (host : String)
    (hbad : is_valid_ip_address ip_address_ok host = false) :
    main_model ip_address_ok host = MainBehavior.exitBeforeLoop 0 0 := by
  simp [main_model, parse_arguments_hostCheck, hbad]

/-- Witness for C3 at the failing input: host string `"invalid_ip"`,
which `ipaddress.ip_address` rejects. -/
theorem C3_invalid_host_witness :
    main_model (fun _ => false) "invalid_ip" = MainBehavior.exitBeforeLoop 0 0 :=
  C3_invalid_host (fun _ => false) "invalid_ip" (by decide)

/-- C4: when every GET attempt fails, `get_current_status` returns
`None` rather than raising; the iteration then skips the adjustment (no
write is issued, no new count is computed) and the loop proceeds to its
next scheduling step: without run-once it simply continues with the next
iteration, with run-once the iteration is the last. -/
theorem C4_exhausted_get (cfg : ScalerConfig) (env : IterEnv)
    (hfail : ∀ j, j < cfg.retry_count → getAttempt (env.getResponses j) = none) :
    (get_current_status cfg.retry_count cfg.retry_delay env.getResponses).result = none ∧
    (runIteration cfg env).putCall = none ∧
    (runIteration cfg env).newReplicas = none ∧
    (∀ envs stopObs k fuel, envs k = env → stopObs k = false →
      runLoopFrom cfg envs false stopObs k (fuel + 1) =
        runIteration cfg env :: runLoopFrom cfg envs false stopObs (k + 1) fuel) ∧
    (∀ envs stopObs k fuel, envs k = env → stopObs k = false →
      runLoopFrom cfg envs true stopObs k (fuel + 1) = [runIteration cfg env]) := by
  have hargs : ∀ j, j < cfg.retry_count → getAttempt (env.getResponses (0 + j)) = none := by
    intro j hj
    simpa using hfail j hj
  have hnone : (get_current_status cfg.retry_count cfg.retry_delay env.getResponses).result =
      none :=
    (get_go_all_fail cfg.retry_delay env.getResponses cfg.retry_count 0 hargs).1
  refine ⟨hnone, ?_, ?_, ?_, ?_⟩
  · rw [runIteration_of_result hnone, iterationBody_none]
  · rw [runIteration_of_result hnone, iterationBody_none]
  · intro envs stopObs k fuel hk hs
    rw [runLoopFrom_succ]
    simp [hs, hk]
  · intro envs stopObs k fuel hk hs
    rw [runLoopFrom_succ]
    simp [hs, hk]

/-- Witness for C4: always-failing transport at the default
configuration yields absence and no write. -/
theorem C4_exhausted_get_witness :
    (get_current_status cfgDefault.retry_count cfgDefault.retry_delay
      envAllFail.getResponses).result = none ∧
    (runIteration cfgDefault envAllFail).putCall = none := by
  have h := C4_exhausted_get cfgDefault envAllFail (fun j _ => rfl)
  exact ⟨h.1, h.2.1⟩

/-- C5: `set_replica_count` treats exactly HTTP 204 as success — an
attempt succeeds iff its response is a 204 — and stops retrying at the
first success; failed attempts are retried under the same attempt cap
and `retry_delay ^ n` backoff as `get_current_status`; on exhausting all
attempts the call just ends with its success flag still false (the
Python method returns `None` either way, raising nothing), and the
loop's shape never depends on any network outcome, so a failed write
never halts the loop. -/
theorem C5_put_semantics (retry_count retry_delay : Nat) (presponses : Nat → HttpPutResult) :
    (∀ r, putAttemptOk r = true ↔ r = HttpPutResult.response 204) ∧
    (∀ k, k < retry_count → (∀ j, j < k → putAttemptOk (presponses j) = false) →
      putAttemptOk (presponses k) = true →
      (set_replica_count retry_count retry_delay presponses).success = true ∧
      (set_replica_count retry_count retry_delay presponses).attemptsMade = k + 1) ∧
    ((set_replica_count retry_count retry_delay presponses).attemptsMade ≤ retry_count ∧
      ∀ i, i < (set_replica_count retry_count retry_delay presponses).sleeps.length →
        (set_replica_count retry_count retry_delay presponses).sleeps.get? i =
          some (retry_delay ^ (i + 1))) ∧
    ((∀ j, j < retry_count → putAttemptOk (presponses j) = false) →
      (set_replica_count retry_count retry_delay presponses).success = false ∧
      (set_replica_count retry_count retry_delay presponses).attemptsMade = retry_count) ∧
    (∀ cfg cfg2 : ScalerConfig, ∀ envs envs2 : Nat → IterEnv, ∀ run_once stopObs fuel k,
      (runLoopFrom cfg envs run_once stopObs k fuel).length =
        (runLoopFrom cfg2 envs2 run_once stopObs k fuel).length) := by
  refine ⟨?_, ?_, ?_, ?_, ?_⟩
  · intro r
    cases r with
    | response statusCode => simp [putAttemptOk]
    | exn => simp [putAttemptOk]
  · intro k hk hfail hok
    have hfail2 : ∀ j, j < k → putAttemptOk (presponses (0 + j)) = false := by
      intro j hj
      simpa using hfail j hj
    have hok2 : putAttemptOk (presponses (0 + k)) = true := by simpa using hok
    exact put_go_first_success retry_delay presponses retry_count 0 k hk hfail2 hok2
  · have hp := put_go_spec retry_delay presponses retry_count 0
    refine ⟨hp.1, ?_⟩
    intro i hi
    rw [show i + 1 = 0 + 1 + i from by omega]
    exact hp.2.1 i hi
  · intro hfail
    have hfail2 : ∀ j, j < retry_count → putAttemptOk (presponses (0 + j)) = false := by
      intro j hj
      simpa using hfail j hj
    exact put_go_all_fail retry_delay presponses retry_count 0 hfail2
  · intro cfg cfg2 envs envs2 run_once stopObs fuel k
    exact runLoopFrom_length_indep cfg cfg2 envs envs2 run_once stopObs fuel k

/-- Witness for C5: a transport error followed by a 204 yields success
after exactly two attempts. -/
theorem C5_put_semantics_witness :
    (set_replica_count 2 3
        (fun k => if k == 0 then HttpPutResult.exn else HttpPutResult.response 204)).success =
      true ∧
    (set_replica_count 2 3
        (fun k => if k == 0 then HttpPutResult.exn else HttpPutResult.response 204)).attemptsMade =
      2 := by
  have h := C5_put_semantics 2 3
    (fun k => if k == 0 then HttpPutResult.exn else HttpPutResult.response 204)
  refine h.2.1 1 (by decide) ?_ rfl
  intro j hj
  have hj0 : j = 0 := by omega
  rw [hj0]
  rfl

/-- C6: the loop is a two-state machine: it starts RUNNING; a RUNNING
boundary moves to STOPPED exactly when the stop signal was observed true
at the top of the iteration or run-once mode is set (ending the loop
right after its single iteration, skipping the sleep); STOPPED is
terminal; `request_stop` is idempotent and sets the flag; and once the
flag is observed the loop is STOPPED by the very next iteration
boundary, i.e. after completing at most the current iteration. -/
theorem C6_state_machine (run_once : Bool) (stopObs : Nat → Bool) :
    loopTraj run_once stopObs 0 = LoopState.RUNNING ∧
    (∀ n, loopTraj run_once stopObs n = LoopState.STOPPED →
      loopTraj run_once stopObs (n + 1) = LoopState.STOPPED) ∧
    (∀ n, loopTraj run_once stopObs n = LoopState.RUNNING →
      (loopTraj run_once stopObs (n + 1) = LoopState.STOPPED ↔
        (stopObs n = true ∨ run_once = true))) ∧
    (∀ s : ScalerState, request_stop (request_stop s) = request_stop s ∧
      (request_stop s).stop_requested = true) ∧
    (∀ n, stopObs n = true → loopTraj run_once stopObs (n + 1) = LoopState.STOPPED) := by
  refine ⟨rfl, ?_, ?_, ?_, ?_⟩
  · intro n h
    rw [loopTraj_succ, h]
    rfl
  · intro n h
    rw [loopTraj_succ, h]
    cases hs : stopObs n
    · cases run_once
      · simp [loopStep]
      · simp [loopStep]
    · simp [loopStep]
  · intro s
    exact ⟨rfl, rfl⟩
  · intro n h
    rw [loopTraj_succ, h]
    cases loopTraj run_once stopObs n
    · rfl
    · rfl

/-- Witness for C6: with the stop signal observed true at iteration 0,
the loop is STOPPED at the next boundary. -/
theorem C6_state_machine_witness :
    loopTraj false (fun _ => true) (0 + 1) = LoopState.STOPPED :=
  (C6_state_machine false (fun _ => true)).2.2.2.2 0 rfl

/-- C7: in an iteration that obtained a status, no write is invoked iff
the decision rule yields no change, and any write that is issued carries
exactly the computed new count — which then differs from the current
count. -/
theorem C7_write_iff_change (cfg : ScalerConfig) (env : IterEnv) (st : Status)
    (h : (get_current_status cfg.retry_count cfg.retry_delay env.getResponses).result = some st) :
    ((runIteration cfg env).putCall = none ↔
      newReplicasCalc cfg.target_cpu_usage st.cpuHighPriority st.replicas = st.replicas) ∧
    (∀ n, (runIteration cfg env).putCall = some n →
      n = newReplicasCalc cfg.target_cpu_usage st.cpuHighPriority st.replicas ∧
      n ≠ st.replicas) := by
  rw [runIteration_of_result h, iterationBody_putCall]
  constructor
  · by_cases hc : newReplicasCalc cfg.target_cpu_usage st.cpuHighPriority st.replicas = st.replicas
    · simp [hc]
    · simp [hc]
  · intro n hn
    by_cases hc : newReplicasCalc cfg.target_cpu_usage st.cpuHighPriority st.replicas = st.replicas
    · rw [if_pos hc] at hn
      exact absurd hn (by simp)
    · rw [if_neg hc] at hn
      obtain rfl := Option.some.inj hn
      exact ⟨rfl, hc⟩

/-- Witness for C7, spec scenario B: CPU 19/20 above target 4/5 with 3
replicas issues a write of 4 — the computed count, different from 3. -/
theorem C7_write_iff_change_witness :
    (4 : Int) = newReplicasCalc (cfgDefault.target_cpu_usage)
      ({ cpuHighPriority := 19/20, replicas := 3 } : Status).cpuHighPriority
      ({ cpuHighPriority := 19/20, replicas := 3 } : Status).replicas ∧
    (4 : Int) ≠ ({ cpuHighPriority := 19/20, replicas := 3 } : Status).replicas := by
  have h := C7_write_iff_change cfgDefault (envOk { cpuHighPriority := 19/20, replicas := 3 })
    { cpuHighPriority := 19/20, replicas := 3 } rfl
  refine h.2 4 ?_
  have hres : (get_current_status cfgDefault.retry_count cfgDefault.retry_delay
      (envOk { cpuHighPriority := 19/20, replicas := 3 }).getResponses).result =
      some { cpuHighPriority := 19/20, replicas := 3 } := rfl
  rw [runIteration_of_result hres, iterationBody_putCall]
  rw [newReplicasCalc_of_gt _ (by norm_num [cfgDefault])]
  norm_num

/-- C8: during `get_current_status`, an HTTP 200 response with an
unparseable body is one more failed attempt under the retry policy —
`response.json()` raises `requests.exceptions.JSONDecodeError`, a
`RequestException` subclass the handler catches — never a hard failure:
a later good attempt still succeeds, and if every attempt is a malformed
200 the call returns `None` after all `retry_count` attempts with the
usual backoff sleeps. -/
theorem C8_malformed_body (retry_count retry_delay : Nat)
    (responses : Nat → HttpGetResult) :
    getAttempt (HttpGetResult.response 200 none) = none ∧
    ((∀ j, j < retry_count → responses j = HttpGetResult.response 200 none) →
      (get_current_status retry_count retry_delay responses).result = none ∧
      (get_current_status retry_count retry_delay responses).attemptsMade = retry_count ∧
      ∀ i, i < (get_current_status retry_count retry_delay responses).sleeps.length →
        (get_current_status retry_count retry_delay responses).sleeps.get? i =
          some (retry_delay ^ (i + 1))) ∧
    (∀ st k, k < retry_count →
      (∀ j, j < k → responses j = HttpGetResult.response 200 none) →
      responses k = HttpGetResult.response 200 (some st) →
      (get_current_status retry_count retry_delay responses).result = some st) := by
  refine ⟨rfl, ?_, ?_⟩
  · intro hmal
    have hfail : ∀ j, j < retry_count → getAttempt (responses (0 + j)) = none := by
      intro j hj
      rw [Nat.zero_add, hmal j hj]
      rfl
    have hall := get_go_all_fail retry_delay responses retry_count 0 hfail
    refine ⟨hall.1, hall.2, ?_⟩
    have hspec := get_go_spec retry_delay responses retry_count 0
    intro i hi
    rw [show i + 1 = 0 + 1 + i from by omega]
    exact hspec.2.1 i hi
  · intro st k hk hfail hok
    have hfail2 : ∀ j, j < k → getAttempt (responses (0 + j)) = none := by
      intro j hj
      rw [Nat.zero_add, hfail j hj]
      rfl
    have hok2 : getAttempt (responses (0 + k)) = some st := by
      rw [Nat.zero_add, hok]
      rfl
    exact (get_go_first_success retry_delay responses st retry_count 0 k hk hfail2 hok2).1

/-- Witness for C8: two malformed-200 attempts exhaust a retry count of
two and surface as absence. -/
theorem C8_malformed_body_witness :
    (get_current_status 2 3 (fun _ => HttpGetResult.response 200 none)).result = none ∧
    (get_current_status 2 3 (fun _ => HttpGetResult.response 200 none)).attemptsMade = 2 := by
  have h := C8_malformed_body 2 3 (fun _ => HttpGetResult.response 200 none)
  have h2 := h.2.1 (fun j _ => rfl)
  exact ⟨h2.1, h2.2.1⟩

/-- C9: a poll whose GET obtains HTTP 200 with a parseable body
succeeds: after any run of failed earlier attempts,
`get_current_status` returns that body — presence, not absence — and the
iteration extracts `current_cpu` from its `cpu.highPriority` field and
`current_replicas` from its `replicas` field and computes `new_replicas`
by the decision rule applied to exactly those two values. -/
theorem C9_successful_poll (cfg : ScalerConfig) (env : IterEnv) (st : Status) (k : Nat)
    (hk : k < cfg.retry_count)
    (hfail : ∀ j, j < k → getAttempt (env.getResponses j) = none)
    (hok : env.getResponses k = HttpGetResult.response 200 (some st)) :
    (get_current_status cfg.retry_count cfg.retry_delay env.getResponses).result = some st ∧
    (runIteration cfg env).status = some st ∧
    (runIteration cfg env).currentCpu = some st.cpuHighPriority ∧
    (runIteration cfg env).currentReplicas = some st.replicas ∧
    (runIteration cfg env).newReplicas =
      some (newReplicasCalc cfg.target_cpu_usage st.cpuHighPriority st.replicas) := by
  have hfail2 : ∀ j, j < k → getAttempt (env.getResponses (0 + j)) = none := by
    intro j hj
    simpa using hfail j hj
  have hok2 : getAttempt (env.getResponses (0 + k)) = some st := by
    rw [Nat.zero_add, hok]
    rfl
  have hres : (get_current_status cfg.retry_count cfg.retry_delay env.getResponses).result =
      some st :=
    (get_go_first_success cfg.retry_delay env.getResponses st cfg.retry_count 0 k
      hk hfail2 hok2).1
  refine ⟨hres, ?_, ?_, ?_, ?_⟩
  · rw [runIteration_of_result hres, iterationBody_some_status]
  · rw [runIteration_of_result hres, iterationBody_some_cpu]
  · rw [runIteration_of_result hres, iterationBody_some_replicas]
  · rw [runIteration_of_result hres, iterationBody_some_new]

/-- Witness for C9: an immediate 200 with body (19/20, 3 replicas) is
extracted into the iteration trace. -/
theorem C9_successful_poll_witness :
    (runIteration cfgDefault (envOk { cpuHighPriority := 19/20, replicas := 3 })).currentReplicas =
      some 3 := by
  have h := C9_successful_poll cfgDefault (envOk { cpuHighPriority := 19/20, replicas := 3 })
    { cpuHighPriority := 19/20, replicas := 3 } 0 (by decide)
    (fun j hj => absurd hj (Nat.not_lt_zero j)) rfl
  exact h.2.2.2.1

/-- C10: under a nonnegative observed replica count, every write the
loop issues carries an argument of at least 1 — the loop never requests
zero replicas — and in particular from zero replicas with CPU below
target the loop issues a write raising the count to 1. -/
theorem C10_never_zero (cfg : ScalerConfig) (env : IterEnv) (st : Status)
    (h : (get_current_status cfg.retry_count cfg.retry_delay env.getResponses).result = some st)
    (hr : 0 ≤ st.replicas) :
    (∀ n, (runIteration cfg env).putCall = some n → 1 ≤ n) ∧
    (st.replicas = 0 → st.cpuHighPriority < cfg.target_cpu_usage →
      (runIteration cfg env).putCall = some 1) := by
  rw [runIteration_of_result h, iterationBody_putCall]
  constructor
  · intro n hn
    by_cases hc : newReplicasCalc cfg.target_cpu_usage st.cpuHighPriority st.replicas = st.replicas
    · rw [if_pos hc] at hn
      exact absurd hn (by simp)
    · rw [if_neg hc] at hn
      obtain rfl := Option.some.inj hn
      rcases lt_trichotomy st.cpuHighPriority cfg.target_cpu_usage with hlt | heq | hgt
      · rw [newReplicasCalc_of_lt st.replicas hlt]
        exact le_max_left 1 _
      · exact absurd (newReplicasCalc_of_eq st.replicas heq) hc
      · rw [newReplicasCalc_of_gt st.replicas hgt]
        omega
  · intro h0 hlt
    have hcalc : newReplicasCalc cfg.target_cpu_usage st.cpuHighPriority st.replicas = 1 := by
      rw [newReplicasCalc_of_lt st.replicas hlt, h0]
      rfl
    have hne : newReplicasCalc cfg.target_cpu_usage st.cpuHighPriority st.replicas ≠
        st.replicas := by
      rw [hcalc, h0]
      decide
    rw [if_neg hne, hcalc]

/-- Witness for C10: zero replicas and CPU 1/2 below target 4/5 yield a
write of exactly one replica. -/
theorem C10_never_zero_witness :
    (runIteration cfgDefault (envOk { cpuHighPriority := 1/2, replicas := 0 })).putCall =
      some 1 := by
  have h := C10_never_zero cfgDefault (envOk { cpuHighPriority := 1/2, replicas := 0 })
    { cpuHighPriority := 1/2, replicas := 0 } rfl (le_refl 0)
  exact h.2 rfl (by norm_num [cfgDefault])

end Autoscaler
